import Mathlib

/-!
Verification development for the ChatFlow real-time chat client.

The definitions below are a shallow embedding of the frontend
synchronization core: the zustand chat store (`stores/chatStore.ts`), the
user/presence store (`stores/userStore.ts`), the socket wrapper
(`api/socket.ts`), the event handlers registered by the chat provider
(`contexts/ChatContext.tsx`), the `useChat` hook (`hooks/useChat.ts`),
the message validator (`utils/validators.ts`), and the reducer-based
chat provider variant (`chatReducer` with unread counters).

JS arrays become `List`, JS objects used as string-keyed maps become
total functions with the appropriate default, `null`/`undefined` become
`Option`, and outbound socket traffic is made explicit as a list of
emitted frames.
-/

namespace ChatFlow

/-! ### Data model (`types/chatTypes.ts`, `types/userTypes.ts`) -/

/-- `Message` from `chatTypes.ts`: id, sender, content, room, type,
timestamp, sender username, and the two receipt arrays. -/
structure Message where
  message_id : String
  sender_id : String
  content : String
  room_id : String
  message_type : String
  timestamp : String
  sender_username : String
  read_by : List String
  delivered_to : List String
deriving DecidableEq

/-- `ChatRoom` from `chatTypes.ts`. -/
structure ChatRoom where
  room_id : String
  name : String
  room_type : String
  created_at : String
  last_activity : String
  member_count : Nat
deriving DecidableEq

/-- `TypingIndicator` from `chatTypes.ts`: note there is no expiry
timestamp field in the source type. -/
structure TypingIndicator where
  user_id : String
  room_id : String
  username : String
  is_typing : Bool
deriving DecidableEq

/-- `User` from `userTypes.ts`. -/
structure User where
  user_id : String
  username : String
  email : String
  is_online : Bool
  last_seen : String
deriving DecidableEq

/-- `UserProfile` from `userTypes.ts` (`User` plus typing/socket info). -/
structure UserProfile where
  user_id : String
  username : String
  email : String
  is_online : Bool
  last_seen : String
  typing_in : Option String
  socket_id : Option String
deriving DecidableEq

/-- `AuthUser` from `userTypes.ts` (the authenticated identity checked by
the guards `if (!user) return;`). -/
structure AuthUser where
  user_id : String
  username : String
  email : String
  token : String
deriving DecidableEq

/-- `ChatState` from `chatTypes.ts`: the zustand chat store state. -/
structure ChatState where
  messages : List Message
  currentRoom : Option ChatRoom
  typingUsers : List TypingIndicator
  isLoading : Bool
  error : Option String
deriving DecidableEq

/-- `initialState` of `chatStore.ts`. -/
def initialChatState : ChatState :=
  { messages := []
    currentRoom := none
    typingUsers := []
    isLoading := false
    error := none }

/-! ### Chat store actions (`stores/chatStore.ts`) -/

/-- `setMessages` (`chatStore.ts` line 33). -/
def setMessages (messages : List Message) (s : ChatState) : ChatState :=
  { s with messages := messages }

/-- `addMessage` (`chatStore.ts` lines 35-37): unconditionally prepends
the incoming message to the `messages` array. -/
def addMessage (message : Message) (s : ChatState) : ChatState :=
  { s with messages := message :: s.messages }

/-- The `Partial<Message>` patches that the code actually passes to
`updateMessage`: the receipt handlers in `ChatContext.tsx` (lines 92-98)
only ever patch `read_by` or `delivered_to`; under the spread merge
`{ ...msg, ...updates }` an absent field keeps its old value. -/
structure MessageUpdate where
  read_by : Option (List String)
  delivered_to : Option (List String)
deriving DecidableEq

/-- Spread merge `{ ...msg, ...updates }` for the patches above. -/
def applyUpdate (m : Message) (u : MessageUpdate) : Message :=
  { m with
    read_by := u.read_by.getD m.read_by
    delivered_to := u.delivered_to.getD m.delivered_to }

/-- `updateMessage` (`chatStore.ts` lines 39-43): maps over the ledger and
spread-merges the updates into the message with the given id. -/
def updateMessage (messageId : String) (updates : MessageUpdate)
    (s : ChatState) : ChatState :=
  { s with
    messages := s.messages.map (fun msg =>
      if msg.message_id = messageId then applyUpdate msg updates else msg) }

/-- `removeMessage` (`chatStore.ts` lines 45-47). -/
def removeMessage (messageId : String) (s : ChatState) : ChatState :=
  { s with messages := s.messages.filter (fun msg => msg.message_id ≠ messageId) }

/-- `setTypingUsers` (`chatStore.ts` line 51). -/
def setTypingUsers (users : List TypingIndicator) (s : ChatState) : ChatState :=
  { s with typingUsers := users }

/-- Core of `addTypingUser` (`chatStore.ts` lines 53-67) on the raw list:
`findIndex` on the (user, room) key, replace in place if found, append
otherwise. -/
def addTypingUserList (user : TypingIndicator)
    (l : List TypingIndicator) : List TypingIndicator :=
  match l.findIdx? (fun u => u.user_id == user.user_id && u.room_id == user.room_id) with
  | some i => l.set i user
  | none => l ++ [user]

/-- `addTypingUser` (`chatStore.ts` lines 53-67). -/
def addTypingUser (user : TypingIndicator) (s : ChatState) : ChatState :=
  { s with typingUsers := addTypingUserList user s.typingUsers }

/-- Core of `removeTypingUser` (`chatStore.ts` lines 69-73) on the raw
list: keep entries whose (user, room) key differs. -/
def removeTypingUserList (userId roomId : String)
    (l : List TypingIndicator) : List TypingIndicator :=
  l.filter (fun u => !(u.user_id == userId && u.room_id == roomId))

/-- `removeTypingUser` (`chatStore.ts` lines 69-73). -/
def removeTypingUser (userId roomId : String) (s : ChatState) : ChatState :=
  { s with typingUsers := removeTypingUserList userId roomId s.typingUsers }

/-- `setError` (`chatStore.ts` line 77). -/
def setError (error : Option String) (s : ChatState) : ChatState :=
  { s with error := error }

/-- `clearError` (`chatStore.ts` line 79). -/
def clearError (s : ChatState) : ChatState :=
  { s with error := none }

/-! ### Chat provider handlers (`contexts/ChatContext.tsx`)

The handlers are registered once inside a `useEffect` whose dependency
array is `[isAuthenticated, isConnected, user]`.  They therefore close
over the `messages` array of the render in which the effect last ran;
that captured array — the `snapshot` parameter below — is NOT refreshed
when the store changes between two inbound events. -/

/-- `messages.find(m => m.message_id === mid)` as used inside the receipt
handlers. -/
def findMessage (msgs : List Message) (mid : String) : Option Message :=
  msgs.find? (fun m => m.message_id == mid)

/-- `handleNewMessage` (`ChatContext.tsx` lines 88-90): forwards the
broadcast message straight to `addMessage`, with no duplicate check. -/
def handleNewMessage (message : Message) (s : ChatState) : ChatState :=
  addMessage message s

/-- `handleMessageRead` (`ChatContext.tsx` lines 92-94): replaces
`read_by` with the receipt set found in the captured `snapshot` (empty if
the message is not in the snapshot) extended by the acting user id. -/
def handleMessageRead (snapshot : List Message) (mid uid : String)
    (s : ChatState) : ChatState :=
  updateMessage mid
    { read_by := some ((((findMessage snapshot mid).map Message.read_by).getD []) ++ [uid])
      delivered_to := none } s

/-- `handleMessageDelivered` (`ChatContext.tsx` lines 96-98): same shape
as `handleMessageRead` for `delivered_to`. -/
def handleMessageDelivered (snapshot : List Message) (mid uid : String)
    (s : ChatState) : ChatState :=
  updateMessage mid
    { read_by := none
      delivered_to := some ((((findMessage snapshot mid).map Message.delivered_to).getD []) ++ [uid]) } s

/-- `handleUserTyping` (`ChatContext.tsx` lines 120-133): routes on the
`is_typing` flag of the broadcast. -/
def handleUserTyping (user_id room_id username : String) (is_typing : Bool)
    (s : ChatState) : ChatState :=
  if is_typing then
    addTypingUser { user_id := user_id, room_id := room_id, username := username, is_typing := is_typing } s
  else
    removeTypingUser user_id room_id s

/-- The `read_by` set of the ledger entry with the given id, if any. -/
def readByOf (s : ChatState) (mid : String) : Option (List String) :=
  (findMessage s.messages mid).map Message.read_by

/-- Number of ledger entries carrying the given id. -/
def countId (s : ChatState) (mid : String) : Nat :=
  s.messages.countP (fun m => m.message_id == mid)

/-! ### User store (`stores/userStore.ts`) -/

/-- `UserState` from `userTypes.ts`: the zustand user store state. -/
structure UserState where
  onlineUsers : List User
  allUsers : List User
  currentUser : Option UserProfile
  isLoading : Bool
  error : Option String
deriving DecidableEq

/-- `initialState` of `userStore.ts`. -/
def initialUserState : UserState :=
  { onlineUsers := []
    allUsers := []
    currentUser := none
    isLoading := false
    error := none }

/-- `setOnlineUsers` (`userStore.ts` line 31). -/
def setOnlineUsers (users : List User) (s : UserState) : UserState :=
  { s with onlineUsers := users }

/-- `setAllUsers` (`userStore.ts` line 33). -/
def setAllUsers (users : List User) (s : UserState) : UserState :=
  { s with allUsers := users }

/-- `addOnlineUser` (`userStore.ts` lines 37-49): replace the entry with
the same `user_id` in place if present, append otherwise. -/
def addOnlineUser (user : User) (s : UserState) : UserState :=
  match s.onlineUsers.findIdx? (fun u => u.user_id == user.user_id) with
  | some i => { s with onlineUsers := s.onlineUsers.set i user }
  | none => { s with onlineUsers := s.onlineUsers ++ [user] }

/-- `removeOnlineUser` (`userStore.ts` lines 51-53): filters the user out
of the `onlineUsers` array; nothing else is touched, and in particular no
offline entry or last-seen timestamp is written anywhere. -/
def removeOnlineUser (userId : String) (s : UserState) : UserState :=
  { s with onlineUsers := s.onlineUsers.filter (fun user => user.user_id != userId) }

/-- Payload of the `user_offline` push as consumed by `handleUserOffline`
(`ChatContext.tsx` lines 159-161): only `data.user_id` is read; a carried
last-seen timestamp, if any, is ignored by the handler. -/
structure OfflineDelta where
  user_id : String
  last_seen : String
deriving DecidableEq

/-- `handleUserOffline` (`ChatContext.tsx` lines 159-161). -/
def handleUserOffline (data : OfflineDelta) (s : UserState) : UserState :=
  removeOnlineUser data.user_id s

/-- `handleUserOnline` (`ChatContext.tsx` lines 155-157). -/
def handleUserOnline (data : User) (s : UserState) : UserState :=
  addOnlineUser data s

/-- `handleOnlineUsers` (`ChatContext.tsx` lines 147-149). -/
def handleOnlineUsers (users : List User) (s : UserState) : UserState :=
  setOnlineUsers users s

/-! ### Message validation (`utils/validators.ts`) -/

/-- `ValidationResult` from `validators.ts`. -/
structure ValidationResult where
  isValid : Bool
  errors : List String
deriving DecidableEq

/-- JS `String.prototype.trim()`: strip leading and trailing whitespace,
modelled on the character list. -/
def jsTrim (s : String) : String :=
  ⟨((s.data.dropWhile Char.isWhitespace).reverse.dropWhile Char.isWhitespace).reverse⟩

/-- `validateMessage` (`validators.ts`): pushes an emptiness error when
`!content || content.trim().length === 0` (for a string, `!content` holds
exactly on the empty string) and a length error when
`content.length > 1000`; `isValid` iff no error was pushed. -/
def validateMessage (content : String) : ValidationResult :=
  let errors : List String :=
    (if content = "" ∨ (jsTrim content).length = 0 then ["Message cannot be empty"] else []) ++
    (if content.length > 1000 then ["Message is too long (max 1000 characters)"] else [])
  { isValid := errors.length == 0, errors := errors }

/-! ### Outbound traffic and the send pipeline
(`api/socket.ts`, `api/chatAPI.ts`, `contexts/ChatContext.tsx`,
`hooks/useChat.ts`) -/

/-- One socket.io frame emitted over the chat channel: event name plus
the string-valued payload fields the code sends. -/
structure Frame where
  event : String
  fields : List (String × String)
deriving DecidableEq

/-- Payload construction of `SocketAPI.sendMessage` (`socket.ts` lines
196-202): `{content, room_id, message_type}` under event `send_message`. -/
def sendMessageFrame (content roomId messageType : String) : Frame :=
  { event := "send_message"
    fields := [("content", content), ("room_id", roomId), ("message_type", messageType)] }

/-- `SocketAPI.emitToChat` (`socket.ts` lines 103-107) viewed from the
send pipeline: the frame goes out only when the chat socket exists and is
connected; otherwise nothing is sent. -/
def emitToChatFrames (chatConnected : Bool) (f : Frame) : List Frame :=
  if chatConnected then [f] else []

/-- Result of a call to the `useChat` hook `sendMessage`: the chat store
state afterwards and the frames that left over the network. -/
structure SendResult where
  store : ChatState
  frames : List Frame
deriving DecidableEq

/-- `useChat.sendMessage` (`useChat.ts` lines 12-23) composed with
`ChatContext.sendMessage` (lines 206-209), `ChatAPI.sendMessage` and
`SocketAPI.sendMessage`/`emitToChat`: guard on the user, validate, on
failure `setError(validation.errors[0])` and return; on success emit the
send frame (when the chat socket is connected) and `clearError()`.
No store insertion of any kind happens on the send path. -/
def useChatSendMessage (user : Option AuthUser) (chatConnected : Bool)
    (content roomId messageType : String) (s : ChatState) : SendResult :=
  match user with
  | none => { store := s, frames := [] }
  | some _ =>
    let validation := validateMessage content
    if validation.isValid then
      { store := clearError s
        frames := emitToChatFrames chatConnected (sendMessageFrame content roomId messageType) }
    else
      { store := setError validation.errors.head? s, frames := [] }

/-! ### The chat provider event dispatcher (`contexts/ChatContext.tsx`)

`ChatProvider` registers handlers for `new_message`, `message_read`,
`message_delivered`, `room_messages`, `joined_room`, `left_room`,
`user_joined_room`, `user_left_room`, `user_typing`, `typing_users`,
`room_created`, `available_rooms`, `error`, `online_users`, `all_users`,
`user_online` and `user_offline`.  No handler is registered for
`message_sent` (the `ChatAPI.onMessageSent` hook exists but is never
called), so a `message_sent` acknowledgment does not touch client state.
Handlers with an empty body (`joined_room`, `left_room`, ...) are
identity steps. -/

/-- Combined client state: the chat store and the user store. -/
structure ClientState where
  chat : ChatState
  users : UserState
deriving DecidableEq

/-- Initial combined client state. -/
def initialClientState : ClientState :=
  { chat := initialChatState, users := initialUserState }

/-- The inbound events the chat provider can receive. -/
inductive ClientEvent where
  | newMessage (message : Message)
  | messageSent (message_id timestamp : String)
  | messageRead (message_id user_id : String)
  | messageDelivered (message_id user_id : String)
  | roomMessages (messages : List Message)
  | joinedRoom (room_id : String)
  | leftRoom (room_id : String)
  | userTyping (user_id room_id username : String) (is_typing : Bool)
  | onlineUsersEvt (users : List User)
  | userOnline (user : User)
  | userOffline (data : OfflineDelta)
  | errorEvt (message : String)
deriving DecidableEq

/-- Dispatch of one inbound event through the handlers registered in
`ChatContext.tsx` lines 84-204.  `snapshot` is the `messages` array the
handler closures captured when the registration effect last ran. -/
def dispatchEvent (snapshot : List Message) :
    ClientEvent → ClientState → ClientState
  | .newMessage m, s => { s with chat := handleNewMessage m s.chat }
  | .messageSent _ _, s => s
  | .messageRead mid uid, s => { s with chat := handleMessageRead snapshot mid uid s.chat }
  | .messageDelivered mid uid, s => { s with chat := handleMessageDelivered snapshot mid uid s.chat }
  | .roomMessages msgs, s => { s with chat := setMessages msgs s.chat }
  | .joinedRoom _, s => s
  | .leftRoom _, s => s
  | .userTyping uid rid name t, s => { s with chat := handleUserTyping uid rid name t s.chat }
  | .onlineUsersEvt us, s => { s with users := handleOnlineUsers us s.users }
  | .userOnline u, s => { s with users := handleUserOnline u s.users }
  | .userOffline d, s => { s with users := handleUserOffline d s.users }
  | .errorEvt msg, s => { s with chat := setError (some msg) s.chat }

/-! ### The socket wrapper (`api/socket.ts`) -/

/-- A transport handle (`socket.io-client` `Socket`): for this model only
its `connected` flag matters. -/
structure Transport where
  connected : Bool
deriving DecidableEq

/-- `ConnectionState` from `socketTypes.ts`. -/
structure ConnectionState where
  isConnected : Bool
  isConnecting : Bool
  error : Option String
deriving DecidableEq

/-- The private fields of the `SocketAPI` singleton that the connection
lifecycle touches. -/
structure SocketState where
  socket : Option Transport
  chatSocket : Option Transport
  connectionState : ConnectionState
  heartbeatOn : Bool
deriving DecidableEq

/-- The initial `SocketAPI` field values (`socket.ts` lines 6-14). -/
def initialSocketState : SocketState :=
  { socket := none
    chatSocket := none
    connectionState := { isConnected := false, isConnecting := false, error := none }
    heartbeatOn := false }

/-- The truthiness of `this.socket?.connected`. -/
def socketConnectedB (s : SocketState) : Bool :=
  (s.socket.map Transport.connected).getD false

/-- The truthiness of `this.chatSocket?.connected`. -/
def chatConnectedB (s : SocketState) : Bool :=
  (s.chatSocket.map Transport.connected).getD false

/-- `SocketAPI.emit` (`socket.ts` lines 97-101): the body is a single
guarded `this.socket.emit(...)` — no mutation, no thrown error, no
buffering.  The call is modelled as the state afterwards plus the frames
that left on the main channel. -/
def emitCall (s : SocketState) (event : String) (fields : List (String × String)) :
    SocketState × List Frame :=
  if socketConnectedB s then (s, [{ event := event, fields := fields }]) else (s, [])

/-- `SocketAPI.emitToChat` (`socket.ts` lines 103-107): same shape on the
chat channel. -/
def emitToChatCall (s : SocketState) (event : String) (fields : List (String × String)) :
    SocketState × List Frame :=
  if chatConnectedB s then (s, [{ event := event, fields := fields }]) else (s, [])

/-- The settlement record of the ES promise returned by `connect()`:
effective resolutions and rejections.  Per ECMAScript promise semantics a
promise settles at most once — calls to `resolve`/`reject` after the
first settlement are ignored, which the absorbing operations below
encode. -/
structure PromiseState where
  resolveCount : Nat
  rejectCount : Nat
deriving DecidableEq

/-- A freshly created, still pending promise. -/
def pendingPromise : PromiseState := { resolveCount := 0, rejectCount := 0 }

/-- Total number of settlements. -/
def settleCount (p : PromiseState) : Nat := p.resolveCount + p.rejectCount

/-- Whether the promise has settled. -/
def PromiseState.settled (p : PromiseState) : Bool := settleCount p != 0

/-- `resolve()`: a no-op once settled. -/
def resolveP (p : PromiseState) : PromiseState :=
  if p.settled then p else { p with resolveCount := p.resolveCount + 1 }

/-- `reject(...)`: a no-op once settled. -/
def rejectP (p : PromiseState) : PromiseState :=
  if p.settled then p else { p with rejectCount := p.rejectCount + 1 }

/-- The transport events the executor of `connect()` subscribes to
(`socket.ts` lines 28-54). -/
inductive SockEvent where
  | connectEvt
  | disconnectEvt
  | errorEvt (message : String)
  | connectErrorEvt (message : String)
deriving DecidableEq

/-- The in-flight record of one `connect()` call: the `SocketAPI` state,
the promise the call returned, and whether `io(...)` was invoked to
construct a new transport. -/
structure ConnectCall where
  state : SocketState
  promise : PromiseState
  newTransport : Bool
deriving DecidableEq

/-- The synchronous part of `SocketAPI.connect` (`socket.ts` lines
16-56): when `this.socket?.connected` the promise resolves immediately
and nothing else happens; otherwise `isConnecting := true`, the error is
cleared, a fresh (not yet connected) transport is constructed via
`io(...)`, the handlers are installed and the promise stays pending. -/
def connectStart (s : SocketState) : ConnectCall :=
  if socketConnectedB s then
    { state := s, promise := resolveP pendingPromise, newTransport := false }
  else
    { state := { s with
        connectionState := { s.connectionState with isConnecting := true, error := none }
        socket := some { connected := false } }
      promise := pendingPromise
      newTransport := true }

/-- One transport event processed by the handlers the `connect()`
executor installed (`socket.ts` lines 28-54): `connect` marks the state
connected, starts the heartbeat and resolves; `disconnect` marks it
disconnected and stops the heartbeat; `error` records the message and
rejects; `connect_error` records the message, clears `isConnecting` and
rejects. -/
def handleSockEvent (c : ConnectCall) : SockEvent → ConnectCall
  | .connectEvt =>
    { c with
      state := { c.state with
        socket := some { connected := true }
        connectionState := { c.state.connectionState with isConnected := true, isConnecting := false }
        heartbeatOn := true }
      promise := resolveP c.promise }
  | .disconnectEvt =>
    { c with
      state := { c.state with
        socket := some { connected := false }
        connectionState := { c.state.connectionState with isConnected := false, isConnecting := false }
        heartbeatOn := false }
      promise := c.promise }
  | .errorEvt msg =>
    { c with
      state := { c.state with
        connectionState := { c.state.connectionState with error := some msg } }
      promise := rejectP c.promise }
  | .connectErrorEvt msg =>
    { c with
      state := { c.state with
        connectionState := { c.state.connectionState with error := some msg, isConnecting := false } }
      promise := rejectP c.promise }

/-- A whole `connect()` call: the synchronous start followed by the
transport events delivered to the installed handlers, in order. -/
def runConnect (s : SocketState) (events : List SockEvent) : ConnectCall :=
  events.foldl handleSockEvent (connectStart s)

/-! ### Typing expiry: the timed client model
(`hooks/useChat.ts`, `utils/constants.ts`)

The only timer in the client that is related to typing is the local
auto-stop in `useChat.startTyping`: after `TYPING_TIMEOUT` (5000 ms) of
local inactivity it emits a `typing_stop` request for the LOCAL user.
No timer, sweep or lazy read-time eviction ever touches the
`typingUsers` array of the chat store, so the passage of time leaves the
remote typing set untouched. -/

/-- `TYPING_TIMEOUT` (`constants.ts`): 5000 ms. -/
def TYPING_TIMEOUT : Nat := 5000

/-- The timed client: the chat store, the clock (ms), the pending local
auto-stop timer of `useChat` (fire time and room id), and the outbound
frames. -/
structure TimedClient where
  store : ChatState
  now : Nat
  localStopDeadline : Option (Nat × String)
  outbox : List Frame
deriving DecidableEq

/-- The `typing_stop` request frame (`SocketAPI.stopTyping`,
`socket.ts` lines 224-226). -/
def typingStopFrame (roomId : String) : Frame :=
  { event := "typing_stop", fields := [("room_id", roomId)] }

/-- Passage of `d` milliseconds: the clock advances and, if the local
auto-stop timer falls due, it fires — emitting a `typing_stop` request
for the local user.  Nothing in the client removes entries from
`store.typingUsers` on a timer. -/
def elapse (d : Nat) (c : TimedClient) : TimedClient :=
  let t := c.now + d
  match c.localStopDeadline with
  | some (deadline, roomId) =>
    if deadline ≤ t then
      { c with now := t, localStopDeadline := none, outbox := c.outbox ++ [typingStopFrame roomId] }
    else
      { c with now := t }
  | none => { c with now := t }

/-- A step of the timed client: either a remote `user_typing` broadcast
is handled, or time passes. -/
inductive TimedStep where
  | recvTyping (user_id room_id username : String) (is_typing : Bool)
  | timePasses (d : Nat)
deriving DecidableEq

/-- Apply one timed step. -/
def applyTimedStep (c : TimedClient) : TimedStep → TimedClient
  | .recvTyping uid rid name t => { c with store := handleUserTyping uid rid name t c.store }
  | .timePasses d => elapse d c

/-- Apply a sequence of timed steps, in order. -/
def applyTimedSteps (steps : List TimedStep) (c : TimedClient) : TimedClient :=
  steps.foldl applyTimedStep c

/-- Whether the typing set holds an entry keyed (user, room). -/
def hasTypingKey (uid rid : String) (l : List TypingIndicator) : Bool :=
  l.any (fun u => u.user_id == uid && u.room_id == rid)

/-- Whether a step is the explicit stop broadcast for the key: a
`user_typing` event with `is_typing = false` for that user and room —
the only step that removes the key from the typing set. -/
def stopsTypingKey (uid rid : String) : TimedStep → Bool
  | .recvTyping u r _ t => u == uid && r == rid && !t
  | .timePasses _ => false

/-! ### Typing-store operation sequences (`stores/chatStore.ts`)

For the uniqueness invariant of the typing list we close the two typing
operations of the chat store under sequencing. -/

/-- One typing-store operation: `addTypingUser` or `removeTypingUser`. -/
inductive TypingOp where
  | add (user : TypingIndicator)
  | remove (userId roomId : String)
deriving DecidableEq

/-- Apply one typing operation to the typing list. -/
def applyTypingOp (l : List TypingIndicator) : TypingOp → List TypingIndicator
  | .add u => addTypingUserList u l
  | .remove uid rid => removeTypingUserList uid rid l

/-- Apply a sequence of typing operations, in order, starting from `l`. -/
def applyTypingOps (ops : List TypingOp) (l : List TypingIndicator) : List TypingIndicator :=
  ops.foldl applyTypingOp l

/-- Two typing entries have distinct (user, room) keys. -/
def keyDistinct (a b : TypingIndicator) : Prop :=
  ¬(a.user_id = b.user_id ∧ a.room_id = b.room_id)

/-- The typing list holds at most one entry per (user, room) key. -/
def typingKeysUnique (l : List TypingIndicator) : Prop :=
  l.Pairwise keyDistinct

/-! ### The reducer-based chat provider (`chatReducer`)

The second chat provider in the repository keeps per-room message lists
and unread counters in a `useReducer` store.  JS objects indexed by room
id become total functions with the default the code supplies on a missing
key (`state.messages[roomId] || []`, `state.unreadCounts[roomId] || 0`). -/

/-- The message shape the reducer consumes: `ADD_MESSAGE` is dispatched
with `{roomId: message.roomId, message}`. -/
structure RMessage where
  id : String
  roomId : String
  content : String
deriving DecidableEq

/-- The reducer provider state (`initialState` of the reducer file):
`activeRoom` is `null` initially and afterwards holds exactly what
`SET_ACTIVE_ROOM` was dispatched with — `joinRoom` dispatches the raw
room-id string and `leaveRoom` dispatches `null`, so at runtime the field
is a string or `null`, never a room object. -/
structure RChatState where
  activeRoom : Option String
  messages : String → List RMessage
  unreadCounts : String → Nat
  lastReadTimestamps : String → Option String
deriving Inhabited

/-- The reducer provider initial state. -/
def initialRChatState : RChatState :=
  { activeRoom := none
    messages := fun _ => []
    unreadCounts := fun _ => 0
    lastReadTimestamps := fun _ => none }

/-- A JS string-or-undefined value, for evaluating optional chaining. -/
inductive JsStr where
  | undefinedV
  | str (s : String)
deriving DecidableEq

/-- The property access `state.activeRoom?.id`: optional chaining on
`null` yields `undefined`, and a string primitive has no `id` property so
the access also yields `undefined`. -/
def activeRoomDotId : Option String → JsStr
  | none => .undefinedV
  | some _ => .undefinedV

/-- JS strict inequality `x !== roomId` between a string-or-undefined
value and a string. -/
def strictNeq : JsStr → String → Bool
  | .undefinedV, _ => true
  | .str a, b => a != b

/-- The reducer actions touched by the unread-counter logic. -/
inductive RAction where
  | setActiveRoom (payload : Option String)
  | addMessage (roomId : String) (message : RMessage)
  | markRoomRead (roomId : String) (now : String)
  | updateUnreadCounts (roomId : String) (count : Nat)
  | setMessagesAct (roomId : String) (messages : List RMessage)

/-- `chatReducer`: `SET_ACTIVE_ROOM` stores the payload; `ADD_MESSAGE`
appends the message to its room list and sets that room's unread counter
to `count+1` when `state.activeRoom?.id !== roomId` and to `0` otherwise;
`MARK_ROOM_READ` zeroes the counter and stamps the read time (the
dispatch-time clock value is passed in as `now`);
`UPDATE_UNREAD_COUNTS` overwrites one counter; `SET_MESSAGES` replaces
one room list.  Counters of other rooms are never touched. -/
def chatReducer (s : RChatState) : RAction → RChatState
  | .setActiveRoom p => { s with activeRoom := p }
  | .addMessage roomId message =>
    { s with
      messages := fun r => if r = roomId then s.messages roomId ++ [message] else s.messages r
      unreadCounts := fun r =>
        if r = roomId then
          (if strictNeq (activeRoomDotId s.activeRoom) roomId then s.unreadCounts roomId + 1 else 0)
        else s.unreadCounts r }
  | .markRoomRead roomId now =>
    { s with
      unreadCounts := fun r => if r = roomId then 0 else s.unreadCounts r
      lastReadTimestamps := fun r => if r = roomId then some now else s.lastReadTimestamps r }
  | .updateUnreadCounts roomId count =>
    { s with unreadCounts := fun r => if r = roomId then count else s.unreadCounts r }
  | .setMessagesAct roomId msgs =>
    { s with messages := fun r => if r = roomId then msgs else s.messages r }

/-- The `room:join` request frame emitted by the reducer provider. -/
def roomJoinFrame (roomId : String) : Frame :=
  { event := "room:join", fields := [("roomId", roomId)] }

/-- `joinRoom` of the reducer provider: emits `room:join`, dispatches
`SET_ACTIVE_ROOM` with the room id string, then `MARK_ROOM_READ` for the
same room (guards on socket and user presence are assumed satisfied,
otherwise the call is a no-op). -/
def reducerJoinRoom (roomId : String) (now : String) (s : RChatState) :
    RChatState × List Frame :=
  (chatReducer (chatReducer s (.setActiveRoom (some roomId))) (.markRoomRead roomId now),
   [roomJoinFrame roomId])

/-- Structural form of `addTypingUserList`: walk the list, replace the
first entry with the same (user, room) key, append at the end when no
entry matches.  Proved equal to `addTypingUserList` below. -/
def replaceOrAppend (user : TypingIndicator) : List TypingIndicator → List TypingIndicator
  | [] => [user]
  | v :: vs =>
    if v.user_id == user.user_id && v.room_id == user.room_id then user :: vs
    else v :: replaceOrAppend user vs

/-! ### Concrete inputs used by witnesses and counterexamples -/

/-- A sample broadcast message. -/
def msgEx : Message :=
  { message_id := "m1", sender_id := "u0", content := "hi", room_id := "r1"
    message_type := "text", timestamp := "2024-01-01T00:00:00Z"
    sender_username := "alice", read_by := [], delivered_to := [] }

/-- A sample online user. -/
def userEx1 : User :=
  { user_id := "u1", username := "alice", email := "alice@example.com"
    is_online := true, last_seen := "t1" }

/-- A second sample online user. -/
def userEx2 : User :=
  { user_id := "u2", username := "bob", email := "bob@example.com"
    is_online := true, last_seen := "t2" }

/-- A `user_offline` delta for `u2` carrying last-seen `t9`. -/
def offlineDeltaEx : OfflineDelta := { user_id := "u2", last_seen := "t9" }

/-- A sample authenticated user. -/
def authEx : AuthUser :=
  { user_id := "u0", username := "alice", email := "alice@example.com", token := "tok" }

/-- A sample remote typing entry. -/
def typingEx : TypingIndicator :=
  { user_id := "u1", room_id := "r1", username := "alice", is_typing := true }

/-- A refresh of `typingEx` with the same (user, room) key. -/
def typingEx2 : TypingIndicator :=
  { user_id := "u1", room_id := "r1", username := "alice!", is_typing := true }

/-- A sample reducer-provider message for room `r2`. -/
def rmsgEx : RMessage := { id := "m2", roomId := "r2", content := "yo" }

/-- The timed client at startup. -/
def timedClient0 : TimedClient :=
  { store := initialChatState, now := 0, localStopDeadline := none, outbox := [] }

/-- A `SocketAPI` state whose main transport is connected. -/
def connectedSocketState : SocketState :=
  { socket := some { connected := true }
    chatSocket := none
    connectionState := { isConnected := true, isConnecting := false, error := none }
    heartbeatOn := true }

/-! ## Helper lemmas -/

/-- `addTypingUserList` computes `replaceOrAppend`. -/
theorem addTypingUserList_eq_replaceOrAppend (u : TypingIndicator) (l : List TypingIndicator) :
    addTypingUserList u l = replaceOrAppend u l := by
  induction l with
  | nil => rfl
  | cons v vs ih =>
    by_cases h : (v.user_id == u.user_id && v.room_id == u.room_id) = true
    · simp [addTypingUserList, replaceOrAppend, List.findIdx?_cons, h]
    · have h' : (v.user_id == u.user_id && v.room_id == u.room_id) = false :=
        Bool.eq_false_iff.mpr h
      cases hfi : vs.findIdx? (fun w => w.user_id == u.user_id && w.room_id == u.room_id) with
      | none =>
        simp [addTypingUserList, replaceOrAppend, List.findIdx?_cons, h', List.findIdx?_succ,
          hfi] at ih ⊢
        exact ih
      | some i =>
        simp only [addTypingUserList, List.findIdx?_cons, h', List.findIdx?_succ, hfi,
          Option.map_some', if_false, Bool.false_eq_true] at ih ⊢
        simp only [replaceOrAppend, h', Bool.false_eq_true, if_false]
        rw [show ((v :: vs).set (i + 1) u) = v :: vs.set i u from rfl, ih]

/-- Membership after `replaceOrAppend`: every entry is the new one or an
old one. -/
theorem mem_replaceOrAppend {w u : TypingIndicator} {l : List TypingIndicator}
    (h : w ∈ replaceOrAppend u l) : w = u ∨ w ∈ l := by
  induction l with
  | nil => simpa [replaceOrAppend] using h
  | cons v vs ih =>
    by_cases hk : (v.user_id == u.user_id && v.room_id == u.room_id) = true
    · simp [replaceOrAppend, hk] at h
      rcases h with h | h
      · exact Or.inl h
      · exact Or.inr (List.mem_cons_of_mem v h)
    · simp only [replaceOrAppend, hk, Bool.false_eq_true, if_false, List.mem_cons] at h
      rcases h with h | h
      · exact Or.inr (by simp [h])
      · rcases ih h with h | h
        · exact Or.inl h
        · exact Or.inr (List.mem_cons_of_mem v h)

/-- `replaceOrAppend` preserves key uniqueness. -/
theorem typingKeysUnique_replaceOrAppend (u : TypingIndicator) (l : List TypingIndicator)
    (h : typingKeysUnique l) : typingKeysUnique (replaceOrAppend u l) := by
  induction l with
  | nil => simp [replaceOrAppend, typingKeysUnique]
  | cons v vs ih =>
    rw [typingKeysUnique, List.pairwise_cons] at h
    obtain ⟨hv, hvs⟩ := h
    by_cases hk : (v.user_id == u.user_id && v.room_id == u.room_id) = true
    · have hkey : v.user_id = u.user_id ∧ v.room_id = u.room_id := by
        constructor
        · exact beq_iff_eq.mp (Bool.and_elim_left hk)
        · exact beq_iff_eq.mp (Bool.and_elim_right hk)
      rw [typingKeysUnique, replaceOrAppend, if_pos hk, List.pairwise_cons]
      refine ⟨?_, hvs⟩
      intro w hw hcontra
      exact hv w hw ⟨hkey.1.trans hcontra.1, hkey.2.trans hcontra.2⟩
    · have hne : keyDistinct v u := by
        intro hcontra
        exact hk (by simp [hcontra.1, hcontra.2])
      rw [typingKeysUnique, replaceOrAppend, if_neg (by simpa using hk), List.pairwise_cons]
      constructor
      · intro w hw
        rcases mem_replaceOrAppend hw with rfl | hwvs
        · exact hne
        · exact hv w hwvs
      · exact ih hvs

/-- A key present in the list is still present after any
`replaceOrAppend`. -/
theorem hasTypingKey_replaceOrAppend (uid rid : String) (u : TypingIndicator)
    (l : List TypingIndicator) (h : hasTypingKey uid rid l = true) :
    hasTypingKey uid rid (replaceOrAppend u l) = true := by
  induction l with
  | nil => simp [hasTypingKey] at h
  | cons v vs ih =>
    by_cases hk : (v.user_id == u.user_id && v.room_id == u.room_id) = true
    · rw [replaceOrAppend, if_pos hk]
      simp only [hasTypingKey, List.any_cons, Bool.or_eq_true] at h ⊢
      rcases h with h | h
      · left
        have h1 : v.user_id = uid := beq_iff_eq.mp (Bool.and_elim_left h)
        have h2 : v.room_id = rid := beq_iff_eq.mp (Bool.and_elim_right h)
        have h3 : v.user_id = u.user_id := beq_iff_eq.mp (Bool.and_elim_left hk)
        have h4 : v.room_id = u.room_id := beq_iff_eq.mp (Bool.and_elim_right hk)
        simp [← h3, ← h4, h1, h2]
      · right
        exact h
    · rw [replaceOrAppend, if_neg (by simpa using hk)]
      simp only [hasTypingKey, List.any_cons, Bool.or_eq_true] at h ⊢
      rcases h with h | h
      · exact Or.inl h
      · exact Or.inr (ih h)

/-- `removeTypingUserList` for a different key preserves key presence. -/
theorem hasTypingKey_removeTypingUserList (uid rid u r : String)
    (l : List TypingIndicator) (h : hasTypingKey uid rid l = true)
    (hne : (u == uid && r == rid) = false) :
    hasTypingKey uid rid (removeTypingUserList u r l) = true := by
  rw [hasTypingKey, List.any_eq_true] at h ⊢
  obtain ⟨w, hw, hwkey⟩ := h
  refine ⟨w, ?_, hwkey⟩
  have h1 : w.user_id = uid := beq_iff_eq.mp (Bool.and_elim_left hwkey)
  have h2 : w.room_id = rid := beq_iff_eq.mp (Bool.and_elim_right hwkey)
  refine List.mem_filter.mpr ⟨hw, ?_⟩
  simp only [Bool.not_eq_true', Bool.and_eq_false_iff]
  rcases Bool.and_eq_false_iff.mp hne with hne | hne
  · left
    rw [h1]
    rw [beq_eq_false_iff_ne] at hne ⊢
    exact fun hc => hne hc.symm
  · right
    rw [h2]
    rw [beq_eq_false_iff_ne] at hne ⊢
    exact fun hc => hne hc.symm

/-- Time passage never touches the chat store. -/
theorem elapse_store (d : Nat) (c : TimedClient) : (elapse d c).store = c.store := by
  rw [elapse]
  cases c.localStopDeadline with
  | none => rfl
  | some dl =>
    obtain ⟨deadline, roomId⟩ := dl
    by_cases h : deadline ≤ c.now + d
    · simp [h]
    · simp [h]

/-- One timed step that is not the stop broadcast for a key preserves
that key in the typing set. -/
theorem hasTypingKey_applyTimedStep (c : TimedClient) (st : TimedStep) (uid rid : String)
    (hkey : hasTypingKey uid rid c.store.typingUsers = true)
    (hns : stopsTypingKey uid rid st = false) :
    hasTypingKey uid rid (applyTimedStep c st).store.typingUsers = true := by
  cases st with
  | timePasses d =>
    rw [applyTimedStep, elapse_store]
    exact hkey
  | recvTyping u r name t =>
    rw [applyTimedStep, handleUserTyping]
    by_cases ht : t = true
    · rw [if_pos ht]
      rw [addTypingUser]
      show hasTypingKey uid rid (addTypingUserList _ c.store.typingUsers) = true
      rw [addTypingUserList_eq_replaceOrAppend]
      exact hasTypingKey_replaceOrAppend uid rid _ _ hkey
    · rw [if_neg ht, removeTypingUser]
      show hasTypingKey uid rid (removeTypingUserList u r c.store.typingUsers) = true
      have htf : t = false := Bool.eq_false_iff.mpr ht
      rw [stopsTypingKey, htf] at hns
      simp only [Bool.not_false, Bool.and_true] at hns
      exact hasTypingKey_removeTypingUserList uid rid u r _ hkey hns

/-- A settled promise absorbs further settlements, so the settlement
count never exceeds one. -/
theorem settleCount_le_one_resolveP (p : PromiseState) (h : settleCount p ≤ 1) :
    settleCount (resolveP p) ≤ 1 := by
  rw [resolveP]
  by_cases hs : p.settled = true
  · rw [if_pos hs]
    exact h
  · rw [if_neg hs]
    have h0 : settleCount p = 0 := by
      have := Bool.eq_false_iff.mpr hs
      rw [PromiseState.settled, bne_eq_false_iff_eq] at this
      exact this
    rw [settleCount] at h0 ⊢
    dsimp only
    omega

/-- Same for rejections. -/
theorem settleCount_le_one_rejectP (p : PromiseState) (h : settleCount p ≤ 1) :
    settleCount (rejectP p) ≤ 1 := by
  rw [rejectP]
  by_cases hs : p.settled = true
  · rw [if_pos hs]
    exact h
  · rw [if_neg hs]
    have h0 : settleCount p = 0 := by
      have := Bool.eq_false_iff.mpr hs
      rw [PromiseState.settled, bne_eq_false_iff_eq] at this
      exact this
    rw [settleCount] at h0 ⊢
    dsimp only
    omega

/-- Handling any transport event keeps the settlement count at most
one. -/
theorem settleCount_le_one_handle (c : ConnectCall) (e : SockEvent)
    (h : settleCount c.promise ≤ 1) :
    settleCount (handleSockEvent c e).promise ≤ 1 := by
  cases e with
  | connectEvt => exact settleCount_le_one_resolveP _ h
  | disconnectEvt => exact h
  | errorEvt msg => exact settleCount_le_one_rejectP _ h
  | connectErrorEvt msg => exact settleCount_le_one_rejectP _ h

/-- Folding transport events keeps the settlement count at most one. -/
theorem settleCount_le_one_foldl (events : List SockEvent) (c : ConnectCall)
    (h : settleCount c.promise ≤ 1) :
    settleCount (events.foldl handleSockEvent c).promise ≤ 1 := by
  induction events generalizing c with
  | nil => exact h
  | cons e es ih => exact ih _ (settleCount_le_one_handle c e h)

/-- Settlements are never undone. -/
theorem settleCount_mono_handle (c : ConnectCall) (e : SockEvent) :
    settleCount c.promise ≤ settleCount (handleSockEvent c e).promise := by
  have hres : ∀ p : PromiseState, settleCount p ≤ settleCount (resolveP p) := by
    intro p
    rw [resolveP]
    by_cases hs : p.settled = true
    · rw [if_pos hs]
    · rw [if_neg hs]
      rw [settleCount, settleCount]
      dsimp only
      omega
  have hrej : ∀ p : PromiseState, settleCount p ≤ settleCount (rejectP p) := by
    intro p
    rw [rejectP]
    by_cases hs : p.settled = true
    · rw [if_pos hs]
    · rw [if_neg hs]
      rw [settleCount, settleCount]
      dsimp only
      omega
  cases e with
  | connectEvt => exact hres _
  | disconnectEvt => exact le_refl _
  | errorEvt msg => exact hrej _
  | connectErrorEvt msg => exact hrej _

/-- Settlements are never undone across a fold. -/
theorem settleCount_mono_foldl (events : List SockEvent) (c : ConnectCall) :
    settleCount c.promise ≤ settleCount (events.foldl handleSockEvent c).promise := by
  induction events generalizing c with
  | nil => exact le_refl _
  | cons e es ih => exact le_trans (settleCount_mono_handle c e) (ih _)

/-- Handling a `connect` transport event settles the promise. -/
theorem one_le_settleCount_connectEvt (c : ConnectCall) :
    1 ≤ settleCount (handleSockEvent c .connectEvt).promise := by
  show 1 ≤ settleCount (resolveP c.promise)
  rw [resolveP]
  by_cases hs : c.promise.settled = true
  · rw [if_pos hs]
    rw [PromiseState.settled, bne_iff_ne] at hs
    omega
  · rw [if_neg hs]
    rw [settleCount]
    dsimp only
    omega

/-! ## Claims -/

/-- C1: the claim that `read_by` / `delivered_to` only grow under
`message_read` / `message_delivered` broadcasts FAILS on the code.  The
receipt handlers rebuild the set from the `messages` array captured by
the handler closures (the registration effect depends only on
`[isAuthenticated, isConnected, user]`, so the capture is not refreshed
between two inbound events).  Evaluating the pipeline at the failing
input: the store holds `m1` with `read_by = []` and the captured snapshot
is that same ledger; a `message_read` by `u1` makes `read_by = [u1]`, but
the following `message_read` by `u2` — handled with the same captured
snapshot — replaces the set with `[u2]`, dropping `u1`. -/
theorem C1_stale_snapshot_receipt_regression :
    readByOf (handleMessageRead [msgEx] "m1" "u1"
      { initialChatState with messages := [msgEx] }) "m1" = some ["u1"] ∧
    readByOf (handleMessageRead [msgEx] "m1" "u2"
      (handleMessageRead [msgEx] "m1" "u1"
        { initialChatState with messages := [msgEx] })) "m1" = some ["u2"] ∧
    "u1" ∉ (readByOf (handleMessageRead [msgEx] "m1" "u2"
      (handleMessageRead [msgEx] "m1" "u1"
        { initialChatState with messages := [msgEx] })) "m1").getD [] := by
  refine ⟨by decide, by decide, by decide⟩

/-- C2: counterexample — receiving the same `new_message` twice is NOT an
idempotent merge: the second receipt prepends a second ledger entry with
the same id, so the ledger differs from the one-receipt ledger and holds
two entries with id `m1`. -/
theorem C2_counterexample :
    handleNewMessage msgEx (handleNewMessage msgEx initialChatState) ≠
      handleNewMessage msgEx initialChatState ∧
    countId (handleNewMessage msgEx (handleNewMessage msgEx initialChatState)) "m1" = 2 ∧
    countId (handleNewMessage msgEx initialChatState) "m1" = 1 := by
  refine ⟨by decide, by decide, by decide⟩

/-- C2 (amended): the `new_message` receive handler prepends the message
unconditionally; applying it twice with the same message yields a ledger
with that message inserted twice, and each receipt increases the number
of ledger entries carrying that id by one (no duplicate-id merge
exists). -/
theorem C2_new_message_duplicate_insertion (m : Message) (s : ChatState) :
    (handleNewMessage m s).messages = m :: s.messages ∧
    (handleNewMessage m (handleNewMessage m s)).messages = m :: m :: s.messages ∧
    countId (handleNewMessage m s) m.message_id = countId s m.message_id + 1 := by
  refine ⟨rfl, rfl, ?_⟩
  simp [handleNewMessage, addMessage, countId]

/-- C7: counterexample — after `online_users{[u1,u2]}` followed by
`user_offline{userId: u2}` carrying last-seen `t9`, the user store holds
no entry for `u2` at all: `u2` is simply filtered out of `onlineUsers`,
so no presence entry shows `u2` offline with the carried last-seen
timestamp, contradicting the claim. -/
theorem C7_counterexample :
    (handleUserOffline offlineDeltaEx
      (handleOnlineUsers [userEx1, userEx2] initialUserState)).onlineUsers = [userEx1] ∧
    (¬ ∃ u ∈ (handleUserOffline offlineDeltaEx
        (handleOnlineUsers [userEx1, userEx2] initialUserState)).onlineUsers,
      u.user_id = "u2") ∧
    (¬ ∃ u ∈ (handleUserOffline offlineDeltaEx
        (handleOnlineUsers [userEx1, userEx2] initialUserState)).allUsers,
      u.user_id = "u2" ∧ u.is_online = false ∧ u.last_seen = "t9") := by
  refine ⟨by decide, by decide, by decide⟩

/-- C7 (amended): a `user_offline` delta removes every `onlineUsers`
entry with the delta user id (the user is no longer listed online),
keeps every other online entry, and leaves `allUsers`, `currentUser` and
`error` unchanged; the last-seen timestamp carried by the delta is not
recorded anywhere. -/
theorem C7_user_offline_removes_entry (s : UserState) (d : OfflineDelta) :
    (∀ u ∈ (handleUserOffline d s).onlineUsers, u.user_id ≠ d.user_id) ∧
    (∀ u ∈ s.onlineUsers, u.user_id ≠ d.user_id → u ∈ (handleUserOffline d s).onlineUsers) ∧
    (handleUserOffline d s).allUsers = s.allUsers ∧
    (handleUserOffline d s).currentUser = s.currentUser ∧
    (handleUserOffline d s).error = s.error := by
  refine ⟨?_, ?_, rfl, rfl, rfl⟩
  · intro u hu
    have h := (List.mem_filter.mp hu).2
    exact bne_iff_ne.mp h
  · intro u hu hne
    exact List.mem_filter.mpr ⟨hu, bne_iff_ne.mpr hne⟩

/-- Witness for C7 (amended): `u1` survives the `user_offline{u2}` delta
and `allUsers` is untouched at the concrete scenario of the claim. -/
theorem C7_user_offline_removes_entry_witness :
    userEx1 ∈ (handleUserOffline offlineDeltaEx
      (handleOnlineUsers [userEx1, userEx2] initialUserState)).onlineUsers ∧
    (handleUserOffline offlineDeltaEx
      (handleOnlineUsers [userEx1, userEx2] initialUserState)).allUsers =
      (handleOnlineUsers [userEx1, userEx2] initialUserState).allUsers :=
  ⟨(C7_user_offline_removes_entry _ offlineDeltaEx).2.1 userEx1 (by decide) (by decide),
   (C7_user_offline_removes_entry _ offlineDeltaEx).2.2.1⟩

/-- C10: calling `emit` while the main socket is absent or not connected,
or `emitToChat` while the chat socket is absent or not connected, is a
silent no-op: no frame leaves, the `SocketAPI` state (and with it
`connectionState.error`) is unchanged, and nothing is buffered — the
call returns the state as it was with an empty frame list. -/
theorem C10_emit_disconnected_noop (s : SocketState) (event : String)
    (fields : List (String × String)) :
    (socketConnectedB s = false → emitCall s event fields = (s, [])) ∧
    (chatConnectedB s = false → emitToChatCall s event fields = (s, [])) := by
  constructor
  · intro h
    rw [emitCall, h]
    rfl
  · intro h
    rw [emitToChatCall, h]
    rfl

/-- Witness for C10: at startup both sockets are absent, and both a main
`heartbeat` emit and a chat `typing_start` emit are silent no-ops. -/
theorem C10_emit_disconnected_noop_witness :
    emitCall initialSocketState "heartbeat" [] = (initialSocketState, []) ∧
    emitToChatCall initialSocketState "typing_start" [("room_id", "r1")] =
      (initialSocketState, []) :=
  ⟨(C10_emit_disconnected_noop initialSocketState "heartbeat" []).1 (by decide),
   (C10_emit_disconnected_noop initialSocketState "typing_start" [("room_id", "r1")]).2 (by decide)⟩

/-- C5: for whitespace-only (hence also empty) or over-long content,
`useChat.sendMessage` short-circuits on local validation: no frame is
emitted over the network, and the store afterwards is exactly the input
store with the first validation error written to its `error` field (the
error list is non-empty, so an error really is surfaced). -/
theorem C5_validation_short_circuit (user : AuthUser) (chatConnected : Bool)
    (content roomId messageType : String) (s : ChatState)
    (h : (jsTrim content).length = 0 ∨ 1000 < content.length) :
    (useChatSendMessage (some user) chatConnected content roomId messageType s).frames = [] ∧
    (useChatSendMessage (some user) chatConnected content roomId messageType s).store =
      setError (validateMessage content).errors.head? s ∧
    (validateMessage content).errors ≠ [] ∧
    (validateMessage content).isValid = false := by
  have herr : (validateMessage content).errors ≠ [] := by
    rcases h with h | h
    · simp [validateMessage, h]
    · have h' : content.length > 1000 := h
      simp [validateMessage, h']
  have hval : (validateMessage content).isValid =
      ((validateMessage content).errors.length == 0) := rfl
  have hv : (validateMessage content).isValid = false := by
    rw [hval]
    simpa [List.length_eq_zero] using herr
  refine ⟨?_, ?_, herr, hv⟩
  · rw [useChatSendMessage]
    simp [hv]
  · rw [useChatSendMessage]
    simp [hv]

/-- Witness for C5: empty content with a connected chat socket emits
nothing and surfaces the emptiness error. -/
theorem C5_validation_short_circuit_witness :
    (useChatSendMessage (some authEx) true "" "r1" "text" initialChatState).frames = [] ∧
    (validateMessage "").isValid = false :=
  ⟨(C5_validation_short_circuit authEx true "" "r1" "text" initialChatState
      (Or.inl (by decide))).1,
   (C5_validation_short_circuit authEx true "" "r1" "text" initialChatState
      (Or.inl (by decide))).2.2.2⟩

/-- C6: in the reducer-based provider, an inbound message to a room other
than the active one increments exactly that room's unread counter by one
and leaves every other counter unchanged, and joining a room resets that
room's counter to zero. -/
theorem C6_unread_counter (s : RChatState) (m : RMessage) (roomId : String)
    (h : s.activeRoom ≠ some roomId) :
    (chatReducer s (.addMessage roomId m)).unreadCounts roomId = s.unreadCounts roomId + 1 ∧
    (∀ r, r ≠ roomId → (chatReducer s (.addMessage roomId m)).unreadCounts r = s.unreadCounts r) ∧
    (∀ (joined now : String), ((reducerJoinRoom joined now s).1).unreadCounts joined = 0) := by
  have hguard : ∀ (a : Option String) (rid : String),
      strictNeq (activeRoomDotId a) rid = true := by
    intro a rid
    cases a <;> rfl
  refine ⟨?_, ?_, ?_⟩
  · rw [chatReducer]
    simp [hguard]
  · intro r hr
    rw [chatReducer]
    simp [hr]
  · intro joined now
    rw [reducerJoinRoom]
    simp [chatReducer]

/-- Witness for C6: from the initial reducer state (no active room), a
message for `r2` takes its counter from 0 to 1, and joining `r2`
afterwards resets it to 0. -/
theorem C6_unread_counter_witness :
    (chatReducer initialRChatState (.addMessage "r2" rmsgEx)).unreadCounts "r2" =
      initialRChatState.unreadCounts "r2" + 1 ∧
    ((reducerJoinRoom "r2" "2024-01-01T00:00:00Z" initialRChatState).1).unreadCounts "r2" = 0 :=
  ⟨(C6_unread_counter initialRChatState rmsgEx "r2" (by decide)).1,
   (C6_unread_counter initialRChatState rmsgEx "r2" (by decide)).2.2 "r2" "2024-01-01T00:00:00Z"⟩

/-- C8: a `connect()` call made while the transport is already connected
is a no-op that resolves immediately: the `SocketAPI` state (hence
`isConnected`, `isConnecting` and `error`) is unchanged, no new transport
is constructed, and the returned promise is settled by exactly one
resolution.  Moreover any `connect()` call settles its promise at most
once no matter which transport events arrive, and settles it exactly once
as soon as the transport reports `connect`. -/
theorem C8_connect_noop_settles_once (s : SocketState)
    (h : socketConnectedB s = true) (s2 : SocketState) (events : List SockEvent) :
    (connectStart s).state = s ∧
    (connectStart s).newTransport = false ∧
    (connectStart s).promise.resolveCount = 1 ∧
    settleCount (connectStart s).promise = 1 ∧
    settleCount (runConnect s2 events).promise ≤ 1 ∧
    (SockEvent.connectEvt ∈ events → settleCount (runConnect s2 events).promise = 1) := by
  have hle : settleCount (runConnect s2 events).promise ≤ 1 := by
    rw [runConnect]
    apply settleCount_le_one_foldl
    rw [connectStart]
    by_cases hb : socketConnectedB s2 = true
    · rw [if_pos hb]
      change settleCount (resolveP pendingPromise) ≤ 1
      decide
    · rw [if_neg hb]
      change settleCount pendingPromise ≤ 1
      decide
  refine ⟨?_, ?_, ?_, ?_, hle, ?_⟩
  · rw [connectStart, if_pos h]
  · rw [connectStart, if_pos h]
  · rw [connectStart, if_pos h]
    change (resolveP pendingPromise).resolveCount = 1
    decide
  · rw [connectStart, if_pos h]
    change settleCount (resolveP pendingPromise) = 1
    decide
  · intro hmem
    refine le_antisymm hle ?_
    rw [runConnect]
    obtain ⟨l1, l2, rfl⟩ := List.append_of_mem hmem
    rw [List.foldl_append, List.foldl_cons]
    calc 1 ≤ settleCount (handleSockEvent (l1.foldl handleSockEvent (connectStart s2))
              SockEvent.connectEvt).promise := one_le_settleCount_connectEvt _
    _ ≤ _ := settleCount_mono_foldl _ _

/-- Witness for C8: with a connected transport the call leaves the state
alone and resolves once; a fresh call that then sees `connect` settles
exactly once. -/
theorem C8_connect_noop_settles_once_witness :
    (connectStart connectedSocketState).state = connectedSocketState ∧
    (connectStart connectedSocketState).newTransport = false ∧
    settleCount (runConnect initialSocketState [SockEvent.connectEvt]).promise = 1 :=
  ⟨(C8_connect_noop_settles_once connectedSocketState (by decide) initialSocketState
      [SockEvent.connectEvt]).1,
   (C8_connect_noop_settles_once connectedSocketState (by decide) initialSocketState
      [SockEvent.connectEvt]).2.1,
   (C8_connect_noop_settles_once connectedSocketState (by decide) initialSocketState
      [SockEvent.connectEvt]).2.2.2.2.2 (by decide)⟩

/-- C3: counterexample — sending valid content `hi` to room `r1` while
connected emits exactly the `send_message` request but inserts NOTHING
into the ledger: the store still holds no message at all, so no
optimistic entry with a correlation id exists; and the `message_sent`
acknowledgment is not handled (no handler is registered for it), so
afterwards the store still holds no entry with the server id `m1`. -/
theorem C3_counterexample :
    (useChatSendMessage (some authEx) true "hi" "r1" "text" initialChatState).store.messages
      = [] ∧
    (useChatSendMessage (some authEx) true "hi" "r1" "text" initialChatState).frames =
      [sendMessageFrame "hi" "r1" "text"] ∧
    dispatchEvent [] (.messageSent "m1" "t1") initialClientState = initialClientState ∧
    (¬ ∃ m ∈ (dispatchEvent [] (.messageSent "m1" "t1") initialClientState).chat.messages,
      m.message_id = "m1") := by
  refine ⟨by decide, by decide, rfl, by decide⟩

/-- C3 (amended): for valid content, `sendMessage` while connected emits
exactly one `send_message` request carrying the content, room id and
message type, and leaves the message ledger unchanged — no optimistic
entry or correlation id is created; a `message_sent` acknowledgment is
not handled at all, so a message reaches the store only via the
`new_message` broadcast. -/
theorem C3_send_is_emit_only (user : AuthUser) (content roomId messageType : String)
    (s : ChatState) (hvalid : (validateMessage content).isValid = true) :
    (useChatSendMessage (some user) true content roomId messageType s).store.messages =
      s.messages ∧
    (useChatSendMessage (some user) true content roomId messageType s).frames =
      [sendMessageFrame content roomId messageType] ∧
    (∀ (snapshot : List Message) (cs : ClientState) (mid ts : String),
      dispatchEvent snapshot (.messageSent mid ts) cs = cs) := by
  refine ⟨?_, ?_, fun _ _ _ _ => rfl⟩
  · rw [useChatSendMessage]
    simp [hvalid, clearError]
  · rw [useChatSendMessage]
    simp [hvalid, emitToChatFrames]

/-- Witness for C3 (amended): valid content `hi` while connected. -/
theorem C3_send_is_emit_only_witness :
    (useChatSendMessage (some authEx) true "hi" "r1" "text" initialChatState).store.messages =
      initialChatState.messages ∧
    (useChatSendMessage (some authEx) true "hi" "r1" "text" initialChatState).frames =
      [sendMessageFrame "hi" "r1" "text"] :=
  ⟨(C3_send_is_emit_only authEx "hi" "r1" "text" initialChatState (by decide)).1,
   (C3_send_is_emit_only authEx "hi" "r1" "text" initialChatState (by decide)).2.1⟩

/-- C4: counterexample — a remote typing-start for `u1` in `r1` with no
subsequent stop and no further activity SURVIVES 6000 ms of time passage,
which exceeds the 5000 ms `TYPING_TIMEOUT` window: no client-side timer,
sweep or lazy eviction ever removes remote typing entries, contradicting
the claim that the entry is removed within the expiry window. -/
theorem C4_counterexample :
    hasTypingKey "u1" "r1"
      (applyTimedSteps [.recvTyping "u1" "r1" "alice" true, .timePasses 6000]
        timedClient0).store.typingUsers = true ∧
    TYPING_TIMEOUT < 6000 := by
  refine ⟨by decide, by decide⟩

/-- C4 (amended): a remote typing entry never expires on the client: time
passage alone leaves the typing set untouched, and across any sequence of
steps (inbound `user_typing` broadcasts and time passage) that contains
no explicit stop broadcast for that (user, room) key, the key stays in
the typing set — it is removed only by an explicit `user_typing` stop
event. -/
theorem C4_typing_never_expires (c : TimedClient) (steps : List TimedStep)
    (uid rid : String) (d : Nat)
    (hkey : hasTypingKey uid rid c.store.typingUsers = true)
    (hnostop : ∀ st ∈ steps, stopsTypingKey uid rid st = false) :
    (elapse d c).store.typingUsers = c.store.typingUsers ∧
    hasTypingKey uid rid (applyTimedSteps steps c).store.typingUsers = true := by
  refine ⟨congrArg ChatState.typingUsers (elapse_store d c), ?_⟩
  induction steps generalizing c with
  | nil => exact hkey
  | cons st sts ih =>
    rw [applyTimedSteps, List.foldl_cons]
    exact ih _ (hasTypingKey_applyTimedStep c st uid rid hkey
      (hnostop st (List.mem_cons_self st sts)))
      (fun st2 h2 => hnostop st2 (List.mem_cons_of_mem st h2))

/-- Witness for C4 (amended): the entry from the counterexample scenario
persists across 6000 ms and an unrelated typing broadcast. -/
theorem C4_typing_never_expires_witness :
    hasTypingKey "u1" "r1"
      (applyTimedSteps [.timePasses 6000, .recvTyping "u9" "r1" "zoe" false]
        (applyTimedStep timedClient0
          (.recvTyping "u1" "r1" "alice" true))).store.typingUsers = true :=
  (C4_typing_never_expires
    (applyTimedStep timedClient0 (.recvTyping "u1" "r1" "alice" true))
    [.timePasses 6000, .recvTyping "u9" "r1" "zoe" false]
    "u1" "r1" 0 (by decide) (by decide)).2

/-- C9: starting from the empty typing list, every sequence of
`addTypingUser` / `removeTypingUser` operations keeps at most one entry
per (user, room) key; moreover whenever the key of the added entry is
already present, `addTypingUser` replaces the first entry with that key
in place — the result is `set` at the found index — so the list length
is unchanged. -/
theorem C9_typing_key_unique (ops : List TypingOp) :
    typingKeysUnique (applyTypingOps ops []) ∧
    (∀ (l : List TypingIndicator) (u : TypingIndicator),
      hasTypingKey u.user_id u.room_id l = true →
      (addTypingUserList u l).length = l.length ∧
      ∃ i, l.findIdx? (fun w => w.user_id == u.user_id && w.room_id == u.room_id) = some i ∧
        addTypingUserList u l = l.set i u) := by
  constructor
  · have hstep : ∀ (l : List TypingIndicator) (op : TypingOp),
        typingKeysUnique l → typingKeysUnique (applyTypingOp l op) := by
      intro l op hl
      cases op with
      | add u =>
        rw [applyTypingOp, addTypingUserList_eq_replaceOrAppend]
        exact typingKeysUnique_replaceOrAppend u l hl
      | remove uid rid =>
        exact hl.sublist (List.filter_sublist l)
    have hfold : ∀ (ops2 : List TypingOp) (l : List TypingIndicator),
        typingKeysUnique l → typingKeysUnique (applyTypingOps ops2 l) := by
      intro ops2
      induction ops2 with
      | nil => exact fun l hl => hl
      | cons op ops3 ih =>
        intro l hl
        exact ih _ (hstep l op hl)
    exact hfold ops [] (by simp [typingKeysUnique])
  · intro l u hkey
    have hsome : (l.findIdx?
        (fun w => w.user_id == u.user_id && w.room_id == u.room_id)).isSome := by
      rw [List.findIdx?_isSome]
      exact hkey
    obtain ⟨i, hi⟩ := Option.isSome_iff_exists.mp hsome
    refine ⟨?_, i, hi, ?_⟩
    · rw [addTypingUserList, hi]
      exact List.length_set l i u
    · rw [addTypingUserList, hi]

/-- Witness for C9: two adds with the same (user, room) key and one
remove leave a key-unique list, and re-adding a present key keeps the
length at one. -/
theorem C9_typing_key_unique_witness :
    typingKeysUnique (applyTypingOps
      [TypingOp.add typingEx, TypingOp.add typingEx2, TypingOp.remove "u9" "r9"] []) ∧
    (addTypingUserList typingEx2 [typingEx]).length = 1 :=
  ⟨(C9_typing_key_unique
      [TypingOp.add typingEx, TypingOp.add typingEx2, TypingOp.remove "u9" "r9"]).1,
   by
     have h := ((C9_typing_key_unique []).2 [typingEx] typingEx2 (by decide)).1
     simpa using h⟩

end ChatFlow
